import Mathlib

/-!
Verification of the EduTutor booking/payment core.

Shallow embedding of the booking-lifecycle and payment-reconciliation
handlers of the repository (`app/routes.py`, `app/admin_routes.py`,
`app/mpesa.py`, `mobile_api/bookings.py`) against `app/models.py`.

The application uses a stock `SQLAlchemy()` base (`app/__init__.py:16`),
and the handlers reference many attributes the models never declare.
The embedding therefore follows the strict semantics of that ORM layer:

  * `Model(**kwargs)` with a keyword naming no class attribute raises
    `TypeError` (the declarative constructor), and no row is created;
  * reading an undeclared attribute of an instance raises
    `AttributeError`;
  * `Model.query.filter_by(unknown=...)` raises `InvalidRequestError`;
  * assigning an undeclared attribute of an instance succeeds in memory
    but is not a column, so `db.session.commit()` does not persist it;
  * a handler that raises before `db.session.commit()` leaves the
    persisted state unchanged (the dirty session is discarded).

Each handler is embedded as the function of its *reachable* behavior:
code past an unconditional raise is dead and is not modelled (each
definition's doc comment names the crash site).  Outcome inductives have
one constructor per reachable exit, crashes included.  Persisted state
is passed in and returned, so "unchanged" is stated as the input flowing
through.

Further conventions:
  * Status values are the literal strings stored by the Python code.
  * Datetimes are integers counting minutes; a calendar date `d`
    combined with a time-of-day `t` (minutes past midnight) is the
    instant `d * 1440 + t`, mirroring `datetime.combine`; 24 hours =
    1440 minutes.
  * `schedule_time` is a string parsed with `strptime('%H:%M')` at use
    sites; we embed it as `Option Int` (minutes past midnight), `none`
    standing for a string that fails parsing — such as the `"ASAP"`
    that `quick_booking` would write.  A `none` at a `strptime` site is
    the handler's unhandled `ValueError`.
  * The declared column lists and the declarative constructor's
    unknown-keyword check are embedded in the `Models` namespace and
    carry the schema facts the theorems cite.
  * Fire-and-forget notifications and logging are external effects and
    are not modelled.
-/

namespace EduTutor

/-- Error taxonomy of the spec (§7) used by the one fully succeeding
route embedded with `Except`: `authorizationError` = 403 responses. -/
inductive ApiError
  | authorizationError
  | invalidStateError
  | policyError
  | validationError
  | notFoundError
  | timeFormatError
deriving DecidableEq

/-- Tutor row: the columns of `app/models.py` lines 95–155 that the
embedded handlers read.  The model declares neither `is_verified` nor
`completed_sessions` (see `Models.tutor_columns`), which is why several
handlers crash. -/
structure TutorRec where
  id : Nat
  user_id : Nat
  hourly_rate : Int
  is_available : Bool
deriving DecidableEq

/-- Booking row: exactly the relevant declared columns of
`app/models.py` lines 161–209.  `tutor_user_id` denormalizes
`booking.tutor.user_id` (reached through the declared `tutor`
relationship), used by the authorization checks.  `schedule_time_min`
embeds the `schedule_time` string as minutes past midnight (`none` for
an unparseable string). -/
structure Booking where
  student_id : Nat
  tutor_id : Nat
  tutor_user_id : Nat
  subject : String
  hours : Int
  total_amount : Int
  schedule_date : Int
  schedule_time_min : Option Int
  status : String := "pending"
  payment_status : String := "pending"
deriving DecidableEq

/-- Payment record value shaped as the payment handlers reference it.
Only `id`, `booking_id`, `amount` (plus `mpesa_code`, `created_at`) are
declared columns (see `Models.payment_columns`); the remaining fields
are handler-referenced attributes.  The embedded handlers below only
pass such records through unchanged. -/
structure PaymentRec where
  id : Nat
  booking_id : Nat
  amount : Int
  status : String
  phone_number : Option Int := none
  checkout_request_id : Option String := none
  merchant_request_id : Option String := none
  mpesa_receipt : Option String := none
  transaction_date : Option Int := none
  completed_at : Option Int := none
  failure_reason : Option String := none
  currency : Option String := none
  payment_method : Option String := none
  pay_type : Option String := none
  notes : Option String := none
  parent_payment_id : Option Nat := none
  refunded_at : Option Int := none
  refund_amount : Option Int := none
  user_id : Option Nat := none
deriving DecidableEq

/-- Instant of the scheduled session start:
`datetime.combine(booking.schedule_date, strptime(booking.schedule_time, '%H:%M'))`.
`none` when the stored time string does not parse. -/
def sessionDatetime (b : Booking) : Option Int :=
  b.schedule_time_min.map (fun t => b.schedule_date * 1440 + t)

namespace Models

/-- Columns actually declared by the ORM `Payment` model
(`app/models.py` lines 273–287). -/
def payment_columns : List String :=
  ["id", "booking_id", "amount", "mpesa_code", "created_at"]

/-- Class attributes of `Payment` visible to `hasattr`: the declared
columns plus the `booking` relationship. -/
def payment_class_attrs : List String :=
  payment_columns ++ ["booking"]

/-- Embeds the SQLAlchemy declarative constructor's keyword check for
`Payment`: a keyword argument naming no attribute of the class raises
`TypeError`, and no record is created. -/
def mk_payment_from_kwargs (kwargs : List String) : Except String Unit :=
  if ∀ k ∈ kwargs, k ∈ payment_class_attrs then .ok () else .error "TypeError"

/-- Keyword arguments passed to `Payment(...)` by
`MpesaService.initiate_stk_push` (`app/mpesa.py` lines 104–112). -/
def stk_push_payment_kwargs : List String :=
  ["booking_id", "amount", "phone_number", "checkout_request_id",
   "merchant_request_id", "transaction_reference", "status"]

/-- Keyword arguments passed to `Payment(...)` by `refund_payment`
(`app/admin_routes.py` lines 857–874). -/
def refund_record_kwargs : List String :=
  ["user_id", "booking_id", "amount", "currency", "payment_method", "type",
   "status", "transaction_id", "notes", "parent_payment_id", "metadata"]

/-- Columns actually declared by the ORM `Booking` model
(`app/models.py` lines 161–209). -/
def booking_columns : List String :=
  ["id", "student_id", "tutor_id", "subject", "hours", "total_amount",
   "schedule_date", "schedule_time", "status", "payment_status",
   "created_at"]

/-- Class attributes of `Booking` visible to `hasattr`: the declared
columns plus the relationships. -/
def booking_class_attrs : List String :=
  booking_columns ++ ["student", "tutor", "payments", "review"]

/-- Embeds the SQLAlchemy declarative constructor's keyword check for
`Booking`. -/
def mk_booking_from_kwargs (kwargs : List String) : Except String Unit :=
  if ∀ k ∈ kwargs, k ∈ booking_class_attrs then .ok () else .error "TypeError"

/-- Keyword arguments passed to `Booking(...)` by the web `book_tutor`
(`app/routes.py` lines 507–519). -/
def book_tutor_booking_kwargs : List String :=
  ["student_id", "tutor_id", "subject", "hours", "total_amount", "location",
   "schedule_date", "schedule_time", "notes", "status", "payment_status"]

/-- Keyword arguments passed to `Booking(...)` by the mobile
`create_booking` (`mobile_api/bookings.py` lines 75–90). -/
def mobile_create_booking_kwargs : List String :=
  ["student_id", "tutor_id", "subject", "hours", "total_amount",
   "platform_fee", "tutor_payout", "location", "schedule_date",
   "schedule_time", "notes", "status", "payment_status", "booking_type"]

/-- Keyword arguments passed to `Booking(...)` by `quick_booking`
(`app/routes.py` lines 1001–1011). -/
def quick_booking_kwargs : List String :=
  ["student_id", "tutor_id", "subject", "hours", "total_amount",
   "schedule_date", "schedule_time", "status", "is_quick_booking"]

/-- Columns actually declared by the ORM `Tutor` model (`app/models.py`
lines 95–155). -/
def tutor_columns : List String :=
  ["id", "user_id", "full_name", "qualifications", "subjects", "level",
   "experience_years", "hourly_rate", "availability", "teaching_mode",
   "bio", "rating", "total_ratings", "is_featured", "is_available",
   "created_at", "updated_at"]

/-- Class attributes of `Tutor` visible to `hasattr`/`getattr`: the
declared columns plus the relationships. -/
def tutor_class_attrs : List String :=
  tutor_columns ++ ["user", "bookings", "reviews", "schedules"]

end Models

namespace Routes

/-- Exits of the status-update endpoint. -/
inductive UpdateStatusOutcome
  | attributeErrorStatusDisplay
  | invalidStatus
deriving DecidableEq

/-- Embeds `update_booking_status` (`app/routes.py` lines 712–741),
after the authorization check.  A requested status among
`confirmed`/`cancelled`/`completed` is written to the `status` column
and committed (line 731) regardless of the current status; the
assignment to `updated_at` (line 730) is an in-memory write to a
non-column attribute and is not persisted.  The endpoint then crashes
with `AttributeError` while building its response — `Booking` has no
`get_status_display` method (line 737) — so it 500s after having
persisted the transition.  Any other requested value is rejected with a
400 and the booking unchanged. -/
def update_booking_status (b : Booking) (new_status : String) :
    Booking × UpdateStatusOutcome :=
  if new_status = "confirmed" ∨ new_status = "cancelled" ∨ new_status = "completed" then
    ({ b with status := new_status }, .attributeErrorStatusDisplay)
  else
    (b, .invalidStatus)

/-- Embeds the web `cancel_booking` (`app/routes.py` lines 584–601):
after the party check (403 otherwise), sets `status` to `cancelled`
unconditionally and commits — no current-status check, no cancellation
cutoff, and every attribute it touches is declared, so this route
succeeds fully. -/
def cancel_booking (user_id : Nat) (b : Booking) : Except ApiError Booking :=
  if b.student_id ≠ user_id ∧ b.tutor_user_id ≠ user_id then
    .error .authorizationError
  else
    .ok { b with status := "cancelled" }

/-- Exits of the web booking create.  `constructorTypeError` carries the
`total_amount` argument computed at line 504 — evaluated before the
constructor raises. -/
inductive BookTutorOutcome
  | tutorUnavailable
  | constructorTypeError (attempted_total_amount : Int)
deriving DecidableEq

/-- Embeds `book_tutor` (`app/routes.py` lines 484–544) on a validated
form: refuses an unavailable tutor (line 491); otherwise computes
`total_amount = tutor.hourly_rate * hours` (line 504) and calls
`Booking(..., location=..., notes=..., ...)` (lines 507–519), which
raises `TypeError` — `location` and `notes` are not `Booking`
attributes (see `Models.book_tutor_booking_kwargs`) — so no booking is
ever persisted by this route. -/
def book_tutor (t : TutorRec) (hours : Int) : BookTutorOutcome :=
  if ¬ (t.is_available = true) then
    .tutorUnavailable
  else
    .constructorTypeError (t.hourly_rate * hours)

/-- Exit of the quick-booking endpoint, carrying the `total_amount` and
`hours` arguments evaluated before the constructor raises. -/
inductive QuickBookingOutcome
  | constructorTypeError (attempted_total_amount : Int) (attempted_hours : Int)
deriving DecidableEq

/-- Embeds `quick_booking` (`app/routes.py` lines 994–1025): evaluates
the constructor arguments — `total_amount = data.get("amount", 500)`,
`hours = 1`, `status = "pending"`, today's date, the unparseable
`schedule_time = "ASAP"` — consulting no tutor row at all (no
availability, verification, or rate check), then calls
`Booking(..., is_quick_booking=True)` (line 1010), which raises
`TypeError` on the unknown keyword; nothing is persisted and the
endpoint 500s.  The notification and response code after `db.session.add`
is unreachable. -/
def quick_booking (user_id tutor_id : Nat) (subject : String)
    (amount : Option Int) (today : Int) : QuickBookingOutcome :=
  .constructorTypeError (amount.getD 500) 1

end Routes

namespace MobileBookings

/-- Exits of the mobile booking create. -/
inductive MobileCreateOutcome
  | missingField
  | tutorNotFound
  | tutorUnavailable
  | attributeErrorIsVerified
deriving DecidableEq

/-- Embeds the mobile `create_booking` (`mobile_api/bookings.py`
lines 13–146): required-field check (lines 21–27), `Tutor.query.get`
(line 30, `none` = 404), availability check (line 37); then line 44
reads `tutor.is_verified`, an attribute the `Tutor` model does not
declare (see `Models.tutor_columns`), raising `AttributeError`.  The
date parse, the `total_amount = tutor.hourly_rate * hours` computation,
and the `Booking(...)` construction (whose keywords `platform_fee`,
`tutor_payout`, `location`, `notes`, `booking_type` would themselves
raise `TypeError`, see `Models.mobile_create_booking_kwargs`) are dead
code: no mobile create ever persists a booking. -/
def create_booking (required_fields_present : Bool)
    (tutor : Option TutorRec) : MobileCreateOutcome :=
  if required_fields_present = false then
    .missingField
  else
    match tutor with
    | none => .tutorNotFound
    | some t =>
      if ¬ (t.is_available = true) then
        .tutorUnavailable
      else
        .attributeErrorIsVerified

/-- Exits of the mobile cancel. -/
inductive CancelOutcome
  | unauthorized
  | alreadyTerminal
  | timeFormatError
  | policyCutoff
  | queryCrash
deriving DecidableEq

/-- Embeds the mobile `cancel_booking` (`mobile_api/bookings.py`
lines 409–490) in the handler's order: party check (403), terminal
status check (400), `strptime` of the schedule time (`ValueError` if
unparseable), the 24-hour cutoff applied only when the caller is the
student (400, nothing written).  Past the cutoff the handler assigns
the cancellation fields in memory and then crashes at
`Payment.query.filter_by(booking_id=..., status='completed')`
(line 451) — `Payment` declares no `status` column, so `filter_by`
raises `InvalidRequestError` *before* the commit at line 460.  The
dirty session is discarded: no mobile cancel ever persists anything,
whoever initiates it. -/
def cancel_booking (user_id : Nat) (b : Booking) (now : Int) :
    CancelOutcome × Booking :=
  if ¬ (b.student_id = user_id ∨ b.tutor_user_id = user_id) then
    (.unauthorized, b)
  else if b.status = "cancelled" ∨ b.status = "completed" then
    (.alreadyTerminal, b)
  else
    match sessionDatetime b with
    | none => (.timeFormatError, b)
    | some sdt =>
      if sdt - now < 1440 ∧ b.student_id = user_id then
        (.policyCutoff, b)
      else
        (.queryCrash, b)

/-- Exits of the mobile complete. -/
inductive CompleteOutcome
  | unauthorized
  | invalidState
  | timeFormatError
  | policyTooEarly
  | attributeErrorCompletedSessions
deriving DecidableEq

/-- Embeds the mobile `complete_booking` (`mobile_api/bookings.py`
lines 492–582): party check (403), `status = confirmed` check (400),
`strptime` of the schedule time, refusal while `utcnow < session start`
(400, nothing written).  Past those guards the handler assigns `status`
and `completed_at` in memory and then crashes at
`booking.tutor.completed_sessions += 1` (line 529) — the `Tutor` model
declares no `completed_sessions` attribute, so the read raises
`AttributeError` *before* the commit at line 535.  No complete ever
persists: the payout scheduling and notifications are dead code. -/
def complete_booking (user_id : Nat) (b : Booking) (now : Int) :
    CompleteOutcome × Booking :=
  if ¬ (b.student_id = user_id ∨ b.tutor_user_id = user_id) then
    (.unauthorized, b)
  else if ¬ (b.status = "confirmed") then
    (.invalidState, b)
  else
    match sessionDatetime b with
    | none => (.timeFormatError, b)
    | some sdt =>
      if now < sdt then
        (.policyTooEarly, b)
      else
        (.attributeErrorCompletedSessions, b)

end MobileBookings

namespace Mpesa

/-- Gateway response fields of a successful STK-push request. -/
structure GwStkResponse where
  checkout_request_id : String
  merchant_request_id : String
  response_code : String
  customer_message : String
deriving DecidableEq

/-- Result dictionary returned by `initiate_stk_push` on success. -/
structure StkResult where
  response_code : String
  customer_message : String
  checkout_request_id : String
  merchant_request_id : String
  payment_id : Nat
deriving DecidableEq

/-- Embeds `MpesaService.initiate_stk_push` (`app/mpesa.py` lines 42–127).
`access_token` is the result of `get_access_token` (`none` on a gateway
token failure) and `gw_response` the STK-push HTTP result (`none` on a
`RequestException`, i.e. network failure or timeout).  On either failure
the handler returns `None` — the gateway-unavailable report — and the
payment store is untouched; on success it appends a new `pending`
payment carrying the gateway correlation identifiers. -/
def initiate_stk_push (access_token : Option String)
    (gw_response : Option GwStkResponse) (phone_number : Int) (amount : Int)
    (booking_id : Nat) (new_payment_id : Nat) (store : List PaymentRec) :
    Option StkResult × List PaymentRec :=
  match access_token with
  | none => (none, store)
  | some _ =>
    match gw_response with
    | none => (none, store)
    | some r =>
      (some { response_code := r.response_code,
              customer_message := r.customer_message,
              checkout_request_id := r.checkout_request_id,
              merchant_request_id := r.merchant_request_id,
              payment_id := new_payment_id },
       store ++ [{ id := new_payment_id, booking_id := booking_id,
                   amount := amount, phone_number := some phone_number,
                   checkout_request_id := some r.checkout_request_id,
                   merchant_request_id := some r.merchant_request_id,
                   status := "pending" }])

/-- Fields extracted from a callback payload's `stkCallback` dictionary
(`app/mpesa.py` lines 141–147) — `.get` lookups that never raise. -/
structure CallbackPayload where
  merchant_request_id : Option String
  checkout_request_id : Option String
  result_code : Option Int
  result_desc : Option String
deriving DecidableEq

/-- Exits of the callback handler: a structured acknowledgement dict, or
the unhandled `InvalidRequestError` escaping to the framework (a 500,
no structured acknowledgement for the gateway). -/
inductive CallbackOutcome
  | ack (result_code : Int) (result_desc : String)
  | invalidRequestError
deriving DecidableEq

/-- Embeds `MpesaService.handle_callback` (`app/mpesa.py` lines 130–202).
An empty/falsy payload is acknowledged with code 1 (lines 134–136).  Any
non-empty payload — whatever result code it carries — reaches
`Payment.query.filter_by(checkout_request_id=...)` at line 150, which
raises `InvalidRequestError` because the `Payment` model declares no
`checkout_request_id` column.  The whole reconciliation block
(lines 154–202: payment completed/failed updates, receipt metadata,
booking confirmed/paid, notifications, acknowledgements) is dead code:
no callback ever reads or writes a `Payment` or `Booking`, and no
non-empty callback is ever acknowledged. -/
def handle_callback (payload : Option CallbackPayload)
    (payments : List PaymentRec) (bookings : List Booking) :
    CallbackOutcome × List PaymentRec × List Booking :=
  match payload with
  | none => (.ack 1 "Invalid callback", payments, bookings)
  | some _ => (.invalidRequestError, payments, bookings)

end Mpesa

namespace AdminRoutes

/-- Exits of the admin payment-status update. -/
inductive AdminUpdateOutcome
  | invalidStatus
  | attributeErrorStatusRead
deriving DecidableEq

/-- Embeds `update_payment_status` (`app/admin_routes.py`
lines 772–832): a target status outside the four lifecycle values is
rejected with a 400 (lines 783–784) before any attribute is touched;
any valid target status reaches `old_status = payment.status` at
line 786, which raises `AttributeError` — `Payment` declares no
`status` column — so the write, the `completed_at` stamp, and the
pending-only booking confirmation (lines 787–797) are dead code.
Nothing is ever written by this endpoint. -/
def update_payment_status (p : PaymentRec) (booking : Option Booking)
    (new_status : String) : AdminUpdateOutcome × PaymentRec × Option Booking :=
  if ¬ (new_status = "pending" ∨ new_status = "completed" ∨
        new_status = "failed" ∨ new_status = "refunded") then
    (.invalidStatus, p, booking)
  else
    (.attributeErrorStatusRead, p, booking)

/-- Exit of the refund endpoint. -/
inductive RefundOutcome
  | attributeErrorStatusRead
deriving DecidableEq

/-- Embeds `refund_payment` (`app/admin_routes.py` lines 835–919): after
`get_or_404` and reading the request JSON, the very first guard
`payment.status != "completed"` at line 843 reads an attribute the
`Payment` model does not declare and raises `AttributeError` on every
call.  The amount cap, the refund `Payment(...)` construction (whose
`status`/`type`/… keywords would themselves raise `TypeError`, see
`Models.refund_record_kwargs`), and the `refunded` write are all dead
code: no refund is ever processed and neither the payment nor the
booking changes. -/
def refund_payment (p : PaymentRec) (bk : Booking) :
    RefundOutcome × PaymentRec × Booking :=
  (.attributeErrorStatusRead, p, bk)

end AdminRoutes

/-! Concrete fixtures used by the counterexample and witness theorems. -/

/-- Available tutor charging 500 per hour. -/
def exTutor : TutorRec :=
  { id := 7, user_id := 2, hourly_rate := 500, is_available := true }

/-- Booking already in the terminal `completed` state. -/
def exCompletedBooking : Booking :=
  { student_id := 1, tutor_id := 7, tutor_user_id := 2, subject := "Math",
    hours := 2, total_amount := 1000, schedule_date := 100,
    schedule_time_min := some 600, status := "completed" }

/-- Booking already in the terminal `cancelled` state. -/
def exBookingCancelled : Booking :=
  { student_id := 1, tutor_id := 7, tutor_user_id := 2, subject := "Math",
    hours := 2, total_amount := 1000, schedule_date := 100,
    schedule_time_min := some 600, status := "cancelled" }

/-- Pending booking whose session (minute 600 of day 0) is less than
24 hours after instant 0. -/
def exSoonBooking : Booking :=
  { student_id := 1, tutor_id := 7, tutor_user_id := 2, subject := "Math",
    hours := 1, total_amount := 500, schedule_date := 0,
    schedule_time_min := some 600, status := "pending" }

/-- Confirmed booking scheduled at minute 600 of day 0. -/
def exConfirmedBooking : Booking :=
  { student_id := 1, tutor_id := 7, tutor_user_id := 2, subject := "Math",
    hours := 2, total_amount := 1000, schedule_date := 0,
    schedule_time_min := some 600, status := "confirmed",
    payment_status := "paid" }

/-- Success callback payload (result code 0) carrying a checkout
correlation identifier. -/
def exPayload : Mpesa.CallbackPayload :=
  { merchant_request_id := some "mer_1", checkout_request_id := some "chk_1",
    result_code := some 0, result_desc := some "Success" }

/-- Payment value shaped as an already-completed charge of 1000, used as
a store element in counterexamples and witnesses. -/
def exPaymentDone : PaymentRec :=
  { id := 1, booking_id := 5, amount := 1000, status := "completed",
    checkout_request_id := some "chk_1", mpesa_receipt := some "RCPT001",
    transaction_date := some 20250101, phone_number := some 254700000000,
    completed_at := some 50 }

/-- Payment value shaped as still awaiting its callback. -/
def exPaymentPending : PaymentRec :=
  { id := 2, booking_id := 6, amount := 800, status := "pending",
    checkout_request_id := some "chk_2" }

/-- Successful gateway response to an STK-push request. -/
def exGw : Mpesa.GwStkResponse :=
  { checkout_request_id := "chk_9", merchant_request_id := "mer_9",
    response_code := "0", customer_message := "ok" }

/-! Theorems settling the claims. -/

/-- C1 counterexample: the API status-update endpoint commits the
disallowed transition completed → confirmed (the persisted status
changes, no `InvalidStateError`), and the web cancel route cancels a
booking already in the terminal `completed` state. -/
theorem status_update_commits_completed_to_confirmed :
    exCompletedBooking.status = "completed" ∧
    (Routes.update_booking_status exCompletedBooking "confirmed").1.status
      = "confirmed" ∧
    (Routes.update_booking_status exCompletedBooking "confirmed").2
      = Routes.UpdateStatusOutcome.attributeErrorStatusDisplay ∧
    Routes.cancel_booking 1 exCompletedBooking =
      Except.ok { exCompletedBooking with status := "cancelled" } :=
  ⟨rfl, rfl, rfl, rfl⟩

/-- C1 (amended): the API status-update endpoint persists any requested
status among `confirmed`/`cancelled`/`completed` regardless of the
booking's current status — the disallowed transition is committed — and
then 500s with `AttributeError` while building its response (`Booking`
has no `get_status_display`), never reporting success; target values
outside that set are rejected with the booking unchanged.  The web
cancel route sets any booking's status to `cancelled` for any
authorized party and succeeds.  No disallowed transition is refused
with `InvalidStateError` on these paths. -/
theorem booking_status_transitions_unguarded (b : Booking) (s : String)
    (u : Nat) :
    (s = "confirmed" ∨ s = "cancelled" ∨ s = "completed" →
      Routes.update_booking_status b s =
        ({ b with status := s },
         Routes.UpdateStatusOutcome.attributeErrorStatusDisplay)) ∧
    (¬ (s = "confirmed" ∨ s = "cancelled" ∨ s = "completed") →
      Routes.update_booking_status b s =
        (b, Routes.UpdateStatusOutcome.invalidStatus)) ∧
    (b.student_id = u ∨ b.tutor_user_id = u →
      Routes.cancel_booking u b = Except.ok { b with status := "cancelled" }) := by
  refine ⟨fun h => ?_, fun h => ?_, fun h => ?_⟩
  · unfold Routes.update_booking_status
    rw [if_pos h]
  · unfold Routes.update_booking_status
    rw [if_neg h]
  · unfold Routes.cancel_booking
    rw [if_neg]
    rintro ⟨h1, h2⟩
    cases h with
    | inl hh => exact h1 hh
    | inr hh => exact h2 hh

/-- C1 amended witness: concrete instances of the three branches. -/
theorem booking_status_transitions_unguarded_witness :
    Routes.update_booking_status exCompletedBooking "cancelled" =
      ({ exCompletedBooking with status := "cancelled" },
       Routes.UpdateStatusOutcome.attributeErrorStatusDisplay) ∧
    Routes.update_booking_status exCompletedBooking "paid" =
      (exCompletedBooking, Routes.UpdateStatusOutcome.invalidStatus) ∧
    Routes.cancel_booking 2 exCompletedBooking =
      Except.ok { exCompletedBooking with status := "cancelled" } :=
  ⟨(booking_status_transitions_unguarded exCompletedBooking "cancelled" 2).1
      (Or.inr (Or.inl rfl)),
   (booking_status_transitions_unguarded exCompletedBooking "paid" 2).2.1
      (by decide),
   (booking_status_transitions_unguarded exCompletedBooking "cancelled" 2).2.2
      (Or.inr rfl)⟩

/-- C2 counterexample: a repeated success callback — payment value
already completed, its booking already cancelled — is acknowledged with
nothing: the handler raises `InvalidRequestError` at the payment
lookup, leaving the stores untouched, and that exit is not the success
acknowledgement the claim promises. -/
theorem handle_callback_second_invocation_no_ack :
    Mpesa.handle_callback (some exPayload) [exPaymentDone] [exBookingCancelled]
      = (Mpesa.CallbackOutcome.invalidRequestError,
         [exPaymentDone], [exBookingCancelled]) ∧
    Mpesa.CallbackOutcome.invalidRequestError ≠
      Mpesa.CallbackOutcome.ack 0 "Success" :=
  ⟨rfl, by decide⟩

/-- C2 (amended): `handle_callback` never reaches its reconciliation
logic — any non-empty payload crashes at the `Payment` lookup (no
`checkout_request_id` column) before reading or writing any state, so a
repeated callback indeed changes neither the Payment nor the Booking,
but it produces an unhandled error rather than a success
acknowledgement; only an empty payload gets a structured
acknowledgement, and that carries code 1, never the success code 0. -/
theorem handle_callback_crashes_before_reconciliation
    (payload : Option Mpesa.CallbackPayload) (payments : List PaymentRec)
    (bookings : List Booking) :
    (Mpesa.handle_callback payload payments bookings).2 =
      (payments, bookings) ∧
    (∀ pl, payload = some pl →
      (Mpesa.handle_callback payload payments bookings).1 =
        Mpesa.CallbackOutcome.invalidRequestError) ∧
    (payload = none →
      (Mpesa.handle_callback payload payments bookings).1 =
        Mpesa.CallbackOutcome.ack 1 "Invalid callback") ∧
    (∀ c d, (Mpesa.handle_callback payload payments bookings).1 =
        Mpesa.CallbackOutcome.ack c d → c = 1) := by
  cases payload with
  | none =>
    refine ⟨rfl, fun pl h => Option.noConfusion h, fun _ => rfl,
            fun c d h => ?_⟩
    injection h with h1 h2
    exact h1.symm
  | some pl0 =>
    refine ⟨rfl, fun pl h => rfl, fun h => Option.noConfusion h,
            fun c d h => ?_⟩
    exact Mpesa.CallbackOutcome.noConfusion h

/-- C2 amended witness: a non-empty payload crashes with the stores
unchanged; an empty payload is acknowledged with code 1. -/
theorem handle_callback_crashes_before_reconciliation_witness :
    (Mpesa.handle_callback (some exPayload) [exPaymentPending]
        [exSoonBooking]).2 = ([exPaymentPending], [exSoonBooking]) ∧
    (Mpesa.handle_callback (some exPayload) [exPaymentPending]
        [exSoonBooking]).1 = Mpesa.CallbackOutcome.invalidRequestError ∧
    (Mpesa.handle_callback none [exPaymentPending] [exSoonBooking]).1 =
      Mpesa.CallbackOutcome.ack 1 "Invalid callback" :=
  ⟨(handle_callback_crashes_before_reconciliation (some exPayload)
      [exPaymentPending] [exSoonBooking]).1,
   (handle_callback_crashes_before_reconciliation (some exPayload)
      [exPaymentPending] [exSoonBooking]).2.1 exPayload rfl,
   (handle_callback_crashes_before_reconciliation none
      [exPaymentPending] [exSoonBooking]).2.2.1 rfl⟩

/-- C3 counterexample: a callback carrying a success result (code 0)
for a store holding a pending payment and a pending booking sets
nothing — the booking stays `pending` (never `confirmed`/`paid`), the
payment list is returned unchanged, and the handler exits with the
lookup crash. -/
theorem handle_callback_success_sets_nothing :
    exPayload.result_code = some 0 ∧
    exSoonBooking.status = "pending" ∧
    Mpesa.handle_callback (some exPayload) [exPaymentPending] [exSoonBooking]
      = (Mpesa.CallbackOutcome.invalidRequestError,
         [exPaymentPending], [exSoonBooking]) :=
  ⟨rfl, rfl, rfl⟩

/-- C3 (amended): no success callback reconciles anything — the handler
crashes at the payment lookup before examining the result, leaving
every Payment and Booking unchanged; and the admin
`update_payment_status` path, the only site carrying the pending-only
confirm guard, crashes reading the nonexistent `payment.status` for
every valid target status (rejecting invalid values with a clean 400),
likewise changing nothing. -/
theorem payment_success_reconciliation_unreachable
    (pl : Mpesa.CallbackPayload) (payments : List PaymentRec)
    (bookings : List Booking) (p : PaymentRec) (bk : Option Booking)
    (s : String) :
    (pl.result_code = some 0 →
      Mpesa.handle_callback (some pl) payments bookings =
        (Mpesa.CallbackOutcome.invalidRequestError, payments, bookings)) ∧
    (s = "pending" ∨ s = "completed" ∨ s = "failed" ∨ s = "refunded" →
      AdminRoutes.update_payment_status p bk s =
        (AdminRoutes.AdminUpdateOutcome.attributeErrorStatusRead, p, bk)) ∧
    (¬ (s = "pending" ∨ s = "completed" ∨ s = "failed" ∨ s = "refunded") →
      AdminRoutes.update_payment_status p bk s =
        (AdminRoutes.AdminUpdateOutcome.invalidStatus, p, bk)) := by
  refine ⟨fun _ => rfl, fun h => ?_, fun h => ?_⟩
  · unfold AdminRoutes.update_payment_status
    rw [if_neg (not_not_intro h)]
  · unfold AdminRoutes.update_payment_status
    rw [if_pos h]

/-- C3 amended witness: the success callback and both admin branches at
concrete inputs. -/
theorem payment_success_reconciliation_unreachable_witness :
    Mpesa.handle_callback (some exPayload) [exPaymentDone]
        [exBookingCancelled] =
      (Mpesa.CallbackOutcome.invalidRequestError,
       [exPaymentDone], [exBookingCancelled]) ∧
    AdminRoutes.update_payment_status exPaymentPending
        (some exCompletedBooking) "completed" =
      (AdminRoutes.AdminUpdateOutcome.attributeErrorStatusRead,
       exPaymentPending, some exCompletedBooking) ∧
    AdminRoutes.update_payment_status exPaymentPending
        (some exCompletedBooking) "paid" =
      (AdminRoutes.AdminUpdateOutcome.invalidStatus,
       exPaymentPending, some exCompletedBooking) :=
  ⟨(payment_success_reconciliation_unreachable exPayload [exPaymentDone]
      [exBookingCancelled] exPaymentPending (some exCompletedBooking)
      "completed").1 rfl,
   (payment_success_reconciliation_unreachable exPayload [exPaymentDone]
      [exBookingCancelled] exPaymentPending (some exCompletedBooking)
      "completed").2.1 (Or.inr (Or.inl rfl)),
   (payment_success_reconciliation_unreachable exPayload [exPaymentDone]
      [exBookingCancelled] exPaymentPending (some exCompletedBooking)
      "paid").2.2 (by decide)⟩

/-- C4 counterexample: through the web cancel route a student cancels a
pending booking whose session start (minute 600) is less than 24 hours
away from the current instant 0 — the cancellation succeeds instead of
failing with `PolicyError`. -/
theorem web_cancel_ignores_cutoff :
    exSoonBooking.status = "pending" ∧
    exSoonBooking.student_id = 1 ∧
    sessionDatetime exSoonBooking = some 600 ∧
    (600 : Int) - 0 < 1440 ∧
    Routes.cancel_booking 1 exSoonBooking =
      Except.ok { exSoonBooking with status := "cancelled" } :=
  ⟨rfl, rfl, rfl, by decide, rfl⟩

/-- C4 (amended): the 24-hour student cutoff is enforced by the
mobile-API cancel as a clean refusal with the booking unchanged; but no
mobile cancel ever commits — past the cutoff check the handler crashes
querying `Payment` by the nonexistent `status` column before the
commit, so tutor-initiated (and out-of-window student) mobile cancels
error out and persist nothing.  The web cancel route cancels
unconditionally for any authorized party at any time. -/
theorem cancel_policy_and_crash (u : Nat) (b : Booking) (now tm : Int) :
    (b.student_id = u → ¬ (b.status = "cancelled" ∨ b.status = "completed") →
      b.schedule_time_min = some tm →
      b.schedule_date * 1440 + tm - now < 1440 →
      MobileBookings.cancel_booking u b now =
        (MobileBookings.CancelOutcome.policyCutoff, b)) ∧
    (b.tutor_user_id = u → ¬ b.student_id = u →
      ¬ (b.status = "cancelled" ∨ b.status = "completed") →
      b.schedule_time_min = some tm →
      MobileBookings.cancel_booking u b now =
        (MobileBookings.CancelOutcome.queryCrash, b)) ∧
    ((MobileBookings.cancel_booking u b now).2 = b) ∧
    (b.student_id = u ∨ b.tutor_user_id = u →
      Routes.cancel_booking u b = Except.ok { b with status := "cancelled" }) := by
  refine ⟨fun hstu hterm htm hcut => ?_, fun htut hnstu hterm htm => ?_,
          ?_, fun h => ?_⟩
  · unfold MobileBookings.cancel_booking
    rw [if_neg (not_not_intro (Or.inl hstu)), if_neg hterm]
    have hsd : sessionDatetime b = some (b.schedule_date * 1440 + tm) := by
      simp [sessionDatetime, htm]
    rw [hsd]
    dsimp only
    rw [if_pos ⟨hcut, hstu⟩]
  · unfold MobileBookings.cancel_booking
    rw [if_neg (not_not_intro (Or.inr htut)), if_neg hterm]
    have hsd : sessionDatetime b = some (b.schedule_date * 1440 + tm) := by
      simp [sessionDatetime, htm]
    rw [hsd]
    dsimp only
    rw [if_neg (fun hc => hnstu hc.2)]
  · unfold MobileBookings.cancel_booking
    repeat' split
    all_goals rfl
  · unfold Routes.cancel_booking
    rw [if_neg]
    rintro ⟨h1, h2⟩
    cases h with
    | inl hh => exact h1 hh
    | inr hh => exact h2 hh

/-- C4 amended witness: the student cutoff refusal, the tutor-side
crash, and the web-route cancel at concrete inputs. -/
theorem cancel_policy_and_crash_witness :
    MobileBookings.cancel_booking 1 exSoonBooking 0 =
      (MobileBookings.CancelOutcome.policyCutoff, exSoonBooking) ∧
    MobileBookings.cancel_booking 2 exSoonBooking 0 =
      (MobileBookings.CancelOutcome.queryCrash, exSoonBooking) ∧
    Routes.cancel_booking 2 exSoonBooking =
      Except.ok { exSoonBooking with status := "cancelled" } :=
  ⟨(cancel_policy_and_crash 1 exSoonBooking 0 600).1 rfl (by decide) rfl
      (by decide),
   (cancel_policy_and_crash 2 exSoonBooking 0 600).2.1 rfl (by decide)
      (by decide) rfl,
   (cancel_policy_and_crash 2 exSoonBooking 0 600).2.2.2 (Or.inr rfl)⟩

/-- C5: no booking Create can succeed.  The web `book_tutor` computes
`total_amount = hourly_rate * hours` and then raises `TypeError`
constructing the booking (unknown keywords `location`, `notes`); the
mobile create crashes reading the undeclared `tutor.is_verified` for
every available tutor, and its own constructor keywords would also be
rejected.  The claimed hours=2 / rate=500 scenario can never persist a
booking. -/
theorem booking_create_always_crashes (t : TutorRec) (hours : Int) :
    (t.is_available = true →
      Routes.book_tutor t hours =
        Routes.BookTutorOutcome.constructorTypeError (t.hourly_rate * hours)) ∧
    (t.is_available = true →
      MobileBookings.create_booking true (some t) =
        MobileBookings.MobileCreateOutcome.attributeErrorIsVerified) ∧
    "location" ∈ Models.book_tutor_booking_kwargs ∧
    Models.mk_booking_from_kwargs Models.book_tutor_booking_kwargs =
      Except.error "TypeError" ∧
    ¬ "is_verified" ∈ Models.tutor_class_attrs ∧
    Models.mk_booking_from_kwargs Models.mobile_create_booking_kwargs =
      Except.error "TypeError" := by
  refine ⟨fun h => ?_, fun h => ?_, by decide, rfl, by decide, rfl⟩
  · unfold Routes.book_tutor
    rw [if_neg (not_not_intro h)]
  · unfold MobileBookings.create_booking
    rw [if_neg (by decide : ¬ ((true : Bool) = false))]
    dsimp only
    rw [if_neg (not_not_intro h)]

/-- C5 witness: against the available rate-500 tutor, the web create
evaluates the 1000 total and dies in the constructor, and the mobile
create dies at the `is_verified` read. -/
theorem booking_create_always_crashes_witness :
    Routes.book_tutor exTutor 2 =
      Routes.BookTutorOutcome.constructorTypeError 1000 ∧
    MobileBookings.create_booking true (some exTutor) =
      MobileBookings.MobileCreateOutcome.attributeErrorIsVerified :=
  ⟨(booking_create_always_crashes exTutor 2).1 rfl,
   (booking_create_always_crashes exTutor 2).2.1 rfl⟩

/-- C6: the mobile complete's refusal branches behave as claimed — 400
unless the status is `confirmed`, 400 while the current instant is
earlier than the scheduled start — but the success path is unreachable:
for a party to a confirmed booking past its start, the handler crashes
reading the undeclared `tutor.completed_sessions` before the commit,
persisting nothing; no counter is ever incremented and no payout ever
scheduled. -/
theorem complete_booking_always_crashes (u : Nat) (b : Booking)
    (now tm : Int) :
    (b.student_id = u ∨ b.tutor_user_id = u) →
    ((¬ b.status = "confirmed" →
        MobileBookings.complete_booking u b now =
          (MobileBookings.CompleteOutcome.invalidState, b)) ∧
     (b.status = "confirmed" → b.schedule_time_min = some tm →
        now < b.schedule_date * 1440 + tm →
        MobileBookings.complete_booking u b now =
          (MobileBookings.CompleteOutcome.policyTooEarly, b)) ∧
     (b.status = "confirmed" → b.schedule_time_min = some tm →
        ¬ now < b.schedule_date * 1440 + tm →
        MobileBookings.complete_booking u b now =
          (MobileBookings.CompleteOutcome.attributeErrorCompletedSessions,
           b)) ∧
     ¬ "completed_sessions" ∈ Models.tutor_class_attrs) := by
  intro hauth
  refine ⟨fun hst => ?_, fun hst htm hlt => ?_, fun hst htm hge => ?_,
          by decide⟩
  · unfold MobileBookings.complete_booking
    rw [if_neg (not_not_intro hauth), if_pos hst]
  · unfold MobileBookings.complete_booking
    rw [if_neg (not_not_intro hauth), if_neg (not_not_intro hst)]
    have hsd : sessionDatetime b = some (b.schedule_date * 1440 + tm) := by
      simp [sessionDatetime, htm]
    rw [hsd]
    dsimp only
    rw [if_pos hlt]
  · unfold MobileBookings.complete_booking
    rw [if_neg (not_not_intro hauth), if_neg (not_not_intro hst)]
    have hsd : sessionDatetime b = some (b.schedule_date * 1440 + tm) := by
      simp [sessionDatetime, htm]
    rw [hsd]
    dsimp only
    rw [if_neg hge]

/-- C6 witness: the confirmed booking scheduled at minute 600 is refused
at instant 0 (too early) and crashes at instant 700, unchanged in both
cases. -/
theorem complete_booking_always_crashes_witness :
    MobileBookings.complete_booking 1 exConfirmedBooking 0 =
      (MobileBookings.CompleteOutcome.policyTooEarly, exConfirmedBooking) ∧
    MobileBookings.complete_booking 1 exConfirmedBooking 700 =
      (MobileBookings.CompleteOutcome.attributeErrorCompletedSessions,
       exConfirmedBooking) :=
  ⟨((complete_booking_always_crashes 1 exConfirmedBooking 0 600)
      (Or.inl rfl)).2.1 rfl rfl (by decide),
   ((complete_booking_always_crashes 1 exConfirmedBooking 700 600)
      (Or.inl rfl)).2.2.1 rfl rfl (by decide)⟩

/-- C7: every refund call crashes at the `payment.status` read —
`Payment` declares no `status` column — before any guard, leaving both
the payment and the linked booking unchanged; the refund record the
handler would build passes a `status` keyword the constructor rejects,
so no refund can ever be processed. -/
theorem refund_always_crashes (p : PaymentRec) (bk : Booking) :
    AdminRoutes.refund_payment p bk =
      (AdminRoutes.RefundOutcome.attributeErrorStatusRead, p, bk) ∧
    ¬ "status" ∈ Models.payment_class_attrs ∧
    "status" ∈ Models.refund_record_kwargs ∧
    Models.mk_payment_from_kwargs Models.refund_record_kwargs =
      Except.error "TypeError" :=
  ⟨rfl, by decide, by decide, rfl⟩

/-- C8: if the gateway token request or the STK-push HTTP call fails or
times out, payment initiation reports the gateway-unavailable result
(`None`) and creates no payment record — the payment store after the
failed initiation equals the store before it. -/
theorem initiate_stk_push_no_orphan (tok : Option String)
    (gw : Option Mpesa.GwStkResponse) (phone amt : Int) (bid nid : Nat)
    (store : List PaymentRec) :
    tok = none ∨ gw = none →
    Mpesa.initiate_stk_push tok gw phone amt bid nid store = (none, store) := by
  intro h
  rcases h with h | h
  · subst h
    rfl
  · subst h
    cases tok with
    | none => rfl
    | some tk => rfl

/-- C8 witness: both failure modes at a concrete non-empty store. -/
theorem initiate_stk_push_no_orphan_witness :
    Mpesa.initiate_stk_push none (some exGw) 254700000000 1000 5 3
        [exPaymentDone] = (none, [exPaymentDone]) ∧
    Mpesa.initiate_stk_push (some "tok") none 254700000000 1000 5 3
        [exPaymentDone] = (none, [exPaymentDone]) :=
  ⟨initiate_stk_push_no_orphan none (some exGw) 254700000000 1000 5 3
      [exPaymentDone] (Or.inl rfl),
   initiate_stk_push_no_orphan (some "tok") none 254700000000 1000 5 3
      [exPaymentDone] (Or.inr rfl)⟩

/-- C9: the ORM `Payment` model declares only the columns `id`,
`booking_id`, `amount`, `mpesa_code`, `created_at`; both payment
initiation and refund processing pass a `status` keyword to
`Payment(...)`, and any construction passing `status` raises `TypeError`
instead of creating a record, so no payment carrying the
pending/completed/failed/refunded lifecycle can be persisted. -/
theorem payment_model_rejects_status_kwarg :
    Models.payment_columns =
      ["id", "booking_id", "amount", "mpesa_code", "created_at"] ∧
    "status" ∈ Models.stk_push_payment_kwargs ∧
    "status" ∈ Models.refund_record_kwargs ∧
    ∀ kwargs : List String, "status" ∈ kwargs →
      Models.mk_payment_from_kwargs kwargs = Except.error "TypeError" := by
  refine ⟨rfl, by decide, by decide, fun kwargs h => ?_⟩
  unfold Models.mk_payment_from_kwargs
  rw [if_neg]
  intro hall
  exact (by decide : ¬ "status" ∈ Models.payment_class_attrs) (hall _ h)

/-- C9 witness: both concrete keyword lists used by the code are
rejected. -/
theorem payment_model_rejects_status_kwarg_witness :
    Models.mk_payment_from_kwargs Models.stk_push_payment_kwargs =
      Except.error "TypeError" ∧
    Models.mk_payment_from_kwargs Models.refund_record_kwargs =
      Except.error "TypeError" :=
  ⟨payment_model_rejects_status_kwarg.2.2.2 Models.stk_push_payment_kwargs
      (by decide),
   payment_model_rejects_status_kwarg.2.2.2 Models.refund_record_kwargs
      (by decide)⟩

/-- C10 counterexample: the quick-booking endpoint persists nothing —
the `Booking(...)` call passes the unknown keyword `is_quick_booking`
and raises `TypeError`; at the concrete input with a client amount of
700 the endpoint evaluates total 700, hours 1, and then dies in the
constructor instead of persisting a pending booking. -/
theorem quick_booking_persists_nothing :
    Routes.quick_booking 1 7 "Math" (some 700) 0 =
      Routes.QuickBookingOutcome.constructorTypeError 700 1 ∧
    "is_quick_booking" ∈ Models.quick_booking_kwargs ∧
    ¬ "is_quick_booking" ∈ Models.booking_class_attrs ∧
    Models.mk_booking_from_kwargs Models.quick_booking_kwargs =
      Except.error "TypeError" :=
  ⟨rfl, by decide, by decide, rfl⟩

/-- C10 (amended): the quick-booking endpoint performs no tutor
availability, verification, or rate check and evaluates
`total_amount = data.get("amount", 500)` with `hours` fixed to 1, but
the booking construction passes the unknown keyword `is_quick_booking`
and raises `TypeError`, so nothing is persisted and the endpoint errors
instead of succeeding. -/
theorem quick_booking_copies_amount_but_crashes (u tid : Nat) (s : String)
    (amt : Option Int) (today : Int) :
    Routes.quick_booking u tid s amt today =
      Routes.QuickBookingOutcome.constructorTypeError (amt.getD 500) 1 ∧
    Routes.quick_booking u tid s none today =
      Routes.QuickBookingOutcome.constructorTypeError 500 1 ∧
    "is_quick_booking" ∈ Models.quick_booking_kwargs ∧
    ¬ "is_quick_booking" ∈ Models.booking_class_attrs ∧
    Models.mk_booking_from_kwargs Models.quick_booking_kwargs =
      Except.error "TypeError" :=
  ⟨rfl, rfl, by decide, by decide, rfl⟩

end EduTutor
